import Mathlib

/-!
Verification development for the DreamWeaver world-simulation core.

The definitions below are a shallow embedding of the Python source
(`dreamweaver/agents/orchestrator.py`, `dreamweaver/world/models.py`,
`dreamweaver/services/storage.py`, `dreamweaver/config.py`).  Python dicts are
association lists that keep insertion order; Python floats are modelled as
exact rationals; the external generative collaborators are oracle parameters
(their structured responses are inputs to the embedded functions); an uncaught
Python exception is `Except.error`.
-/

set_option maxRecDepth 4000

namespace DW

/-- Exact rational numbers used to model Python floats.  The denominator is
stored as `dm1 + 1` so that every representable value is well formed and all
arithmetic is kernel-computable (no gcd normalisation). -/
structure Q where
  n : Int
  dm1 : Nat
deriving DecidableEq, Inhabited

/-- Denominator of a `Q`, always positive. -/
def Q.den (q : Q) : Int := (q.dm1 : Int) + 1

/-- Order on `Q` by cross multiplication (denominators are positive). -/
def Qle (a b : Q) : Prop := a.n * b.den ≤ b.n * a.den

/-- Strict order on `Q` by cross multiplication. -/
def Qlt (a b : Q) : Prop := a.n * b.den < b.n * a.den

instance (a b : Q) : Decidable (Qle a b) := by unfold Qle; exact Int.decLe _ _

instance (a b : Q) : Decidable (Qlt a b) := by unfold Qlt; exact Int.decLt _ _

/-- The integer `i` as a `Q`. -/
def qInt (i : Int) : Q := ⟨i, 0⟩

/-- The decimal fraction `i / 10^k` as a `Q`. -/
def qDec (i : Int) (k : Nat) : Q := ⟨i, 10 ^ k - 1⟩

/-- Addition on `Q` (exact; Python float rounding is idealised away). -/
def qadd (a b : Q) : Q := ⟨a.n * b.den + b.n * a.den, (a.dm1 + 1) * (b.dm1 + 1) - 1⟩

/-- Negation on `Q`. -/
def qneg (a : Q) : Q := ⟨-a.n, a.dm1⟩

/-- Subtraction on `Q`. -/
def qsub (a b : Q) : Q := qadd a (qneg b)

/-- Python `min(a, b)`: returns the second argument only when it is strictly
smaller (ties keep the first argument). -/
def qMin (a b : Q) : Q := if Qlt b a then b else a

/-- Python `max(a, b)`: returns the second argument only when it is strictly
greater (ties keep the first argument). -/
def qMax (a b : Q) : Q := if Qlt a b then b else a

/-- Python `max(0.0, min(1.0, x))`, the clamp used throughout the
orchestrator for metrics, stats and loyalty. -/
def clamp01 (x : Q) : Q := qMax (qInt 0) (qMin (qInt 1) x)

/-- Python truncation toward zero, as performed by `int()` on a float. -/
def qTrunc (q : Q) : Int := q.n.tdiv q.den

theorem Qle_refl (a : Q) : Qle a a := Int.le_refl _

theorem Qle_of_Qlt {a b : Q} (h : Qlt a b) : Qle a b := Int.le_of_lt h

theorem Qle_of_not_Qlt {a b : Q} (h : ¬ Qlt b a) : Qle a b := by
  unfold Qlt at h
  unfold Qle
  omega

/-- The clamp always lands in `[0, 1]`. -/
theorem clamp01_mem (x : Q) : Qle (qInt 0) (clamp01 x) ∧ Qle (clamp01 x) (qInt 1) := by
  unfold clamp01 qMax qMin
  by_cases hx : Qlt x (qInt 1)
  · rw [if_pos hx]
    by_cases h0 : Qlt (qInt 0) x
    · rw [if_pos h0]
      exact ⟨Qle_of_Qlt h0, Qle_of_Qlt hx⟩
    · rw [if_neg h0]
      refine ⟨Qle_refl _, ?_⟩
      unfold Qle qInt Q.den
      simp
  · rw [if_neg hx]
    by_cases h0 : Qlt (qInt 0) (qInt 1)
    · rw [if_pos h0]
      exact ⟨Qle_of_Qlt h0, Qle_refl _⟩
    · rw [if_neg h0]
      exact ⟨Qle_refl _, by decide⟩

/-- Model of a JSON value as the orchestrator probes it: a number, a string,
a boolean, `null`, or some other structure (list/dict); for the latter only
its Python truthiness is retained. -/
inductive Val where
  | num (q : Q)
  | str (s : String)
  | bool (b : Bool)
  | null
  | other (truthy : Bool)
deriving DecidableEq, Inhabited

/-- Digit run to a natural number. -/
def digitsToNat (cs : List Char) : Nat :=
  cs.foldl (fun n c => n * 10 + (c.toNat - '0'.toNat)) 0

/-- Python `str.strip()` (ASCII whitespace model). -/
def stripStr (s : String) : String :=
  String.mk (((s.data.dropWhile Char.isWhitespace).reverse.dropWhile Char.isWhitespace).reverse)

/-- Parse an optional sign, returning the sign and the remaining characters. -/
def splitSign : List Char → Bool × List Char
  | '-' :: rest => (true, rest)
  | '+' :: rest => (false, rest)
  | cs => (false, cs)

/-- Parse the body of a Python integer literal (digits only). -/
def parseIntDigits (neg : Bool) (cs : List Char) : Option Int :=
  if cs ≠ [] ∧ cs.all Char.isDigit then
    some (if neg then -(digitsToNat cs : Int) else (digitsToNat cs : Int))
  else
    none

/-- Python `int(s)` on a string: strip, optional sign, digits; anything else
raises (modelled as `none`). -/
def parseIntStr (s : String) : Option Int :=
  let (neg, cs) := splitSign (stripStr s).data
  parseIntDigits neg cs

/-- Python `float(s)` on a string: strip, optional sign, digits with an
optional fractional part; anything else raises (modelled as `none`). -/
def parseFloatStr (s : String) : Option Q :=
  let (neg, cs) := splitSign (stripStr s).data
  let intPart := cs.takeWhile Char.isDigit
  let rest := cs.dropWhile Char.isDigit
  match rest with
  | [] =>
    if intPart ≠ [] then
      some ⟨(if neg then -(digitsToNat intPart : Int) else (digitsToNat intPart : Int)), 0⟩
    else none
  | '.' :: frac =>
    if (intPart ≠ [] ∨ frac ≠ []) ∧ frac.all Char.isDigit then
      let k := frac.length
      let m : Int := (digitsToNat intPart : Int) * (10 ^ k : Nat) + (digitsToNat frac : Int)
      some ⟨(if neg then -m else m), 10 ^ k - 1⟩
    else none
  | _ => none

/-- Python `float(v)` on a JSON value; `none` models the raised exception. -/
def pyFloat : Val → Option Q
  | .num q => some q
  | .str s => parseFloatStr s
  | .bool b => some (qInt (if b then 1 else 0))
  | .null => none
  | .other _ => none

/-- Python `int(v)` on a JSON value; `none` models the raised exception. -/
def pyInt : Val → Option Int
  | .num q => some (qTrunc q)
  | .str s => parseIntStr s
  | .bool b => some (if b then 1 else 0)
  | .null => none
  | .other _ => none

/-- Python truthiness of a JSON value. -/
def valTruthy : Val → Bool
  | .num q => q.n ≠ 0
  | .str s => s ≠ ""
  | .bool b => b
  | .null => false
  | .other t => t

/-- Python `str(v)` of a JSON value; non-string cases are abstracted (no claim
observes the rendered text of a non-string value). -/
def valStr : Val → String
  | .str s => s
  | _ => "<value>"

/-- Truthiness of an optional string (Python `if x:` on a value that is
`None` or a `str`). -/
def truthyS : Option String → Bool
  | some s => s ≠ ""
  | none => false

/-- Lookup in an insertion-ordered association list (Python `d.get(k)` /
`d[k]`): first matching key. -/
def lookupA {α : Type} (m : List (String × α)) (k : String) : Option α :=
  (m.find? (fun p => p.1 == k)).map (fun p => p.2)

/-- In-place overwrite of an existing key. -/
def replaceA {α : Type} (m : List (String × α)) (k : String) (v : α) : List (String × α) :=
  m.map (fun p => if p.1 == k then (k, v) else p)

/-- Python `d[k] = v`: update in place when the key exists, else append. -/
def insertA {α : Type} (m : List (String × α)) (k : String) (v : α) : List (String × α) :=
  if m.any (fun p => p.1 == k) then replaceA m k v else m ++ [(k, v)]

/-- Python `del d[k]` (no-op when the key is absent, as guarded in the
source). -/
def eraseA {α : Type} (m : List (String × α)) (k : String) : List (String × α) :=
  m.filter (fun p => p.1 != k)

/-- Python `l[-n:]`. -/
def lastN {α : Type} (n : Nat) (l : List α) : List α :=
  l.drop (l.length - n)

/-- The source pattern `l.append(x); if len(l) > cap: l = l[-cap:]`. -/
def appendTrim {α : Type} (cap : Nat) (l : List α) (x : α) : List α :=
  let l' := l ++ [x]
  if l'.length > cap then lastN cap l' else l'

/-- Region dataclass (`world/models.py`). -/
structure Region where
  id : String
  name : String
  description : String
  biome : String := "plains"
  type : String := "unknown"
  neighbors : List String := []
  known_to_player : Bool := true
  exits : List (String × String) := []
  local_quest_ids : List String := []
  exit_flavor : List (String × String) := []
deriving DecidableEq, Inhabited

/-- Character (NPC) dataclass (`world/models.py`). -/
structure Character where
  id : String
  name : String
  role : String
  location_region_id : String
  mood : String := "neutral"
  loyalty : Q := qDec 5 1
  traits : List String := []
  memories : List String := []
deriving DecidableEq, Inhabited

/-- PlayerState dataclass (`world/models.py`); default stats are 0.5 for
courage, empathy and cunning. -/
structure PlayerState where
  user_id : String
  character_id : String
  name : String
  char_class : String
  location_region_id : String
  stats : List (String × Q) := [("courage", qDec 5 1), ("empathy", qDec 5 1), ("cunning", qDec 5 1)]
  reputation : List (String × Q) := []
  goals : List String := []
  inventory : List String := []
deriving DecidableEq, Inhabited

/-- WorldMetrics dataclass (`world/models.py`) with its source defaults. -/
structure WorldMetrics where
  world_health : Q := qDec 7 1
  chaos_level : Q := qDec 3 1
  magic_level : Q := qDec 4 1
  alliance_tension : Q := qDec 2 1
deriving DecidableEq, Inhabited

/-- Quest dataclass (`world/models.py`). -/
structure Quest where
  id : String
  title : String
  status : String
  summary : String
  related_regions : List String := []
  related_characters : List String := []
  answer_type : String := "none"
  correct_answers : List String := []
  keywords : List String := []
deriving DecidableEq, Inhabited

/-- Event dataclass (`world/models.py`). -/
structure Event where
  id : String
  type : String
  description : String
  tick : Int
  affected_regions : List String := []
  impact : List (String × Val) := []
deriving DecidableEq, Inhabited

/-- Action dataclass (`world/models.py`); `params` values are arbitrary JSON. -/
structure Action where
  type : String
  target_region_id : Option String := none
  target_character_id : Option String := none
  params : List (String × Val) := []
deriving DecidableEq, Inhabited

/-- One `story_log` entry as appended by `handle_turn`. -/
structure StoryEntry where
  tick : Int
  user_id : String
  message : String
  text : String
  timestamp : Q
deriving DecidableEq, Inhabited

/-- WorldState dataclass (`world/models.py`).  Maps are insertion-ordered
association lists, as Python dicts are; `active_players` timestamps are kept
as raw JSON values because stored snapshots may hold non-numeric data. -/
structure WorldState where
  world_id : String
  seed_prompt : String
  tick : Int
  regions : List (String × Region)
  characters : List (String × Character)
  players : List (String × PlayerState)
  quests : List (String × Quest)
  metrics : WorldMetrics
  history_summaries : List String
  last_events : List Event
  active_players : List (String × Val)
  last_scene_text : Option String := none
  world_size : String := "medium"
  chat_log : List String := []
  story_log : List StoryEntry := []
  is_open : Bool := false
deriving DecidableEq, Inhabited

/-- Idle timeout from `config.py` (`SESSION_TIMEOUT_SECONDS = 600`). -/
def SESSION_TIMEOUT_SECONDS : Q := qInt 600

/-- World-effects block of a dialogue-weaver response
(`dw_result["world_effects"]`), as probed by the orchestrator. -/
structure DwEffects where
  npc_mood : Option String := none
  npc_loyalty_delta : Option Val := none
  player_stats_delta : List (String × Val) := []
deriving DecidableEq, Inhabited

/-- Dialogue-weaver collaborator response. -/
structure DwResult where
  dialogue : String := ""
  npc_reaction : String := ""
  world_effects : DwEffects := {}
deriving DecidableEq, Inhabited

/-- One raw event object inside an event-engine response; `id` is `none` when
the key is missing (then `e["id"]` raises). -/
structure RawEvent where
  id : Option String := none
  type : String := "generic"
  description : String := ""
  affected_regions : List String := []
  impact : List (String × Val) := []
deriving DecidableEq, Inhabited

/-- Event-engine collaborator response. -/
structure EeResult where
  metrics_delta : List (String × Val) := []
  player_stats_delta : List (String × Val) := []
  events : List RawEvent := []
deriving DecidableEq, Inhabited

/-- One raw quest object from the quest-master or world-architect response;
`id` is `none` when the key is missing (that entry is skipped), and the
default for a missing `title` is the quest id itself. -/
structure RawQuest where
  id : Option String := none
  title : Option String := none
  status : String := "open"
  summary : String := ""
  related_regions : List String := []
  related_characters : List String := []
deriving DecidableEq, Inhabited

/-- Quest-master collaborator response. -/
structure QmResult where
  quests : List RawQuest := []
  notifications : List String := []
  player_stats_delta : List (String × Val) := []
deriving DecidableEq, Inhabited

/-- Story-conductor collaborator response. -/
structure ScResult where
  narration : String := ""
  suggested_actions : List String := []
deriving DecidableEq, Inhabited

/-- One raw region object from a world-architect response; `id` is `none`
when the key is missing (then `r["id"]` raises). -/
structure RawRegion where
  id : Option String := none
  name : Option String := none
  description : String := ""
  type : String := "unknown"
  neighbors : List String := []
  biome : String := "plains"
  local_quest_ids : List String := []
  exit_flavor : List (String × String) := []
deriving DecidableEq, Inhabited

/-- One raw starter character from a world-architect response; a missing `id`
raises, and `loyalty` goes through `float()` (raises on bad data). -/
structure RawChar where
  id : Option String := none
  name : Option String := none
  role : String := "npc"
  location_region_id : Option String := none
  mood : String := "neutral"
  loyalty : Option Val := none
  traits : List String := []
  memories : List String := []
deriving DecidableEq, Inhabited

/-- World-architect collaborator response. -/
structure WaResult where
  regions : List RawRegion := []
  history_notes : List String := []
  world_size : String := "medium"
  starter_quests : List RawQuest := []
  starter_characters : List RawChar := []
deriving DecidableEq, Inhabited

/-- View returned by `get_state_view`. -/
structure StateView where
  visual : String
  story : String
deriving DecidableEq, Inhabited

/-- `DreamWeaverOrchestrator._apply_stat_changes`: for each delta, clamp the
updated stat to `[0,1]`; a malformed delta is caught and the old value is
written back (a missing stat reads as 0.5). -/
def applyStatChanges (stats : List (String × Q)) (deltas : List (String × Val)) :
    List (String × Q) :=
  deltas.foldl
    (fun st p =>
      let old := (lookupA st p.1).getD (qDec 5 1)
      let newv :=
        match pyFloat p.2 with
        | some d => clamp01 (qadd old d)
        | none => old
      insertA st p.1 newv)
    stats

/-- Write a player back into the world's player map (the Python code mutates
the aliased `player` object in place). -/
def setPlayer (ws : WorldState) (uid : String) (p : PlayerState) : WorldState :=
  { ws with players := insertA ws.players uid p }

/-- Apply `_apply_stat_changes` to the acting player inside the world.  The
no-entry branch is unreachable: `_update_world` dereferences
`players[user_id]` before any call. -/
def applyStatsToPlayer (ws : WorldState) (uid : String) (deltas : List (String × Val)) :
    WorldState :=
  match lookupA ws.players uid with
  | some p => setPlayer ws uid { p with stats := applyStatChanges p.stats deltas }
  | none => ws

/-- Display name of the acting player (unreachable default as above). -/
def actorName (ws : WorldState) (uid : String) : String :=
  match lookupA ws.players uid with
  | some p => p.name
  | none => ""

/-- The player-target scan of the TALK branch: the first player whose
character id, display name or user id equals the (truthy) target identifier. -/
def findTargetPlayer (ws : WorldState) (tid : Option String) : Option PlayerState :=
  if truthyS tid then
    (ws.players.find? (fun pr =>
      tid.getD "" == pr.2.character_id || tid.getD "" == pr.2.name ||
        tid.getD "" == pr.2.user_id)).map (fun pr => pr.2)
  else
    none

/-- Notice emitted when the talked-to player is currently active. -/
def hereMsg (name : String) : String :=
  "You address " ++ name ++ " directly. They are here and can respond on their own turn."

/-- Notice emitted when the talked-to player is not active. -/
def notAroundMsg (name : String) : String :=
  "You call out for " ++ name ++ ", but they don\x27t seem to be around right now. " ++
    "Maybe focus on the world and its quests until they return."

/-- Chat-log line mirrored for player-to-player talk. -/
def chatLine (speaker target utterance : String) : String :=
  speaker ++ " → " ++ target ++ ": " ++ utterance

/-- Loyalty update from `world_effects["npc_loyalty_delta"]`: clamped to
`[0,1]`, with malformed deltas caught and ignored. -/
def applyLoyaltyDelta (loyalty : Q) (delta : Option Val) : Q :=
  match delta with
  | some v =>
    match pyFloat v with
    | some d => clamp01 (qadd loyalty d)
    | none => loyalty
  | none => loyalty

/-- The "Conversation:" snippet assembled from a dialogue-weaver response. -/
def talkSnippet (r : DwResult) : String :=
  "Conversation:\n" ++ r.dialogue ++
    (if r.npc_reaction ≠ "" then "\n\nNPC reaction: " ++ r.npc_reaction else "")

/-- State threaded through the per-action resolution loop of
`_update_world`.  `dwIdx` counts dialogue-weaver calls made so far. -/
structure ResolveSt where
  world : WorldState
  numTicks : Int := 1
  talkSnips : List String := []
  dwIdx : Nat := 0
deriving Inhabited

/-- The `days` computation of the FAST_FORWARD branch:
`int(action.params.get("days", 1))` with the try/except fallback to 1. -/
def ffDays (a : Action) : Int :=
  match lookupA a.params "days" with
  | none => 1
  | some v => (pyInt v).getD 1

/-- One iteration of the action loop of `_update_world` (`orchestrator.py`
lines 533-639): MOVE, FAST_FORWARD and TALK have direct effects; every other
action type falls through with no state change. -/
def resolveOne (uid : String) (dw : Nat → DwResult) (st : ResolveSt) (a : Action) :
    ResolveSt :=
  if a.type == "MOVE" && truthyS a.target_region_id then
    let rid := a.target_region_id.getD ""
    if (lookupA st.world.regions rid).isSome then
      match lookupA st.world.players uid with
      | some p => { st with world := setPlayer st.world uid { p with location_region_id := rid } }
      | none => st
    else st
  else if a.type == "FAST_FORWARD" then
    { st with numTicks := max 1 (ffDays a) }
  else if a.type == "TALK" then
    match findTargetPlayer st.world a.target_character_id with
    | some tp =>
      -- Player-to-player talk: never puppet a real player as an NPC.
      let snippet :=
        if (lookupA st.world.active_players tp.user_id).isSome then hereMsg tp.name
        else notAroundMsg tp.name
      let w :=
        match lookupA a.params "utterance" with
        | some line =>
          if valTruthy line then
            { st.world with
              chat_log := appendTrim 200 st.world.chat_log
                (chatLine (actorName st.world uid) tp.name (valStr line)) }
          else st.world
        | none => st.world
      { st with world := w, talkSnips := st.talkSnips ++ [snippet] }
    | none =>
      -- NPC dialogue path: one dialogue-weaver call.
      let npc :=
        if truthyS a.target_character_id then
          lookupA st.world.characters (a.target_character_id.getD "")
        else none
      let r := dw st.dwIdx
      let snips :=
        if r.dialogue ≠ "" then st.talkSnips ++ [talkSnippet r] else st.talkSnips
      let w :=
        match npc with
        | some c =>
          let c :=
            match r.world_effects.npc_mood with
            | some m => { c with mood := m }
            | none => c
          let c := { c with loyalty := applyLoyaltyDelta c.loyalty r.world_effects.npc_loyalty_delta }
          { st.world with characters := insertA st.world.characters c.id c }
        | none => st.world
      let w := applyStatsToPlayer w uid r.world_effects.player_stats_delta
      { st with world := w, talkSnips := snips, dwIdx := st.dwIdx + 1 }
  else st

/-- The whole action loop of `_update_world`. -/
def resolveLoop (uid : String) (dw : Nat → DwResult) (st : ResolveSt) (actions : List Action) :
    ResolveSt :=
  actions.foldl (resolveOne uid dw) st

/-- `float(metrics_delta.get(k, 0.0))`: a missing key defaults to 0.0; a
present but non-numeric value raises (this call is NOT wrapped in
try/except in the source). -/
def pyFloatDefault0 (v : Option Val) : Except String Q :=
  match v with
  | none => .ok (qInt 0)
  | some v =>
    match pyFloat v with
    | some q => .ok q
    | none => .error "float: malformed metrics delta"

/-- The metric-delta block of `_update_world` (lines 658-663): each of the
four fields is clamped to `[0,1]`; any malformed delta raises. -/
def applyMetricsDelta (m : WorldMetrics) (d : List (String × Val)) :
    Except String WorldMetrics :=
  match pyFloatDefault0 (lookupA d "world_health") with
  | .error e => .error e
  | .ok dh =>
    match pyFloatDefault0 (lookupA d "chaos_level") with
    | .error e => .error e
    | .ok dc =>
      match pyFloatDefault0 (lookupA d "magic_level") with
      | .error e => .error e
      | .ok dm =>
        match pyFloatDefault0 (lookupA d "alliance_tension") with
        | .error e => .error e
        | .ok dt =>
          .ok
            { world_health := clamp01 (qadd m.world_health dh)
              chaos_level := clamp01 (qadd m.chaos_level dc)
              magic_level := clamp01 (qadd m.magic_level dm)
              alliance_tension := clamp01 (qadd m.alliance_tension dt) }

/-- Build one `Event` from a raw event object; a missing `id` raises. -/
def buildEvent (tick : Int) (e : RawEvent) : Except String Event :=
  match e.id with
  | none => .error "KeyError: id"
  | some i =>
    .ok
      { id := i, type := e.type, description := e.description, tick := tick
        affected_regions := e.affected_regions, impact := e.impact }

/-- The event-recording loop of `_update_world` (lines 669-681): collects
events and flags the last climactic one as the special event. -/
def buildEvents (tick : Int) (evs : List RawEvent) :
    Except String (List Event × Option String) :=
  evs.foldl
    (fun acc e =>
      match acc with
      | .error err => .error err
      | .ok (l, sp) =>
        match buildEvent tick e with
        | .error err => .error err
        | .ok ev =>
          .ok (l ++ [ev],
            if ev.type == "dragon_hatching" || ev.type == "boss_battle" then some ev.type
            else sp))
    (.ok ([], none))

/-- Build one `Quest` from a raw quest object (shared by the quest-master
replacement loop and the starter-quest loop). -/
def mkQuest (qid : String) (q : RawQuest) : Quest :=
  { id := qid, title := q.title.getD qid, status := q.status, summary := q.summary
    related_regions := q.related_regions, related_characters := q.related_characters }

/-- One step of the quest-dict construction loop: an entry without an `id`
is skipped (`try ... except: continue`). -/
def questStep (acc : List (String × Quest)) (q : RawQuest) : List (String × Quest) :=
  match q.id with
  | none => acc
  | some qid => insertA acc qid (mkQuest qid q)

/-- The quest-dict construction loop. -/
def buildQuests (l : List RawQuest) : List (String × Quest) :=
  l.foldl questStep []

/-- The quest-continuity stage of `_update_world` (lines 698-722): a
non-empty returned list whose parse yields at least one quest replaces the
quest map wholesale; otherwise the map is untouched.  Notifications become an
extra-notes block. -/
def applyQuestStage (ws : WorldState) (qm : QmResult) : WorldState × List String :=
  let ws :=
    if qm.quests ≠ [] then
      let nq := buildQuests qm.quests
      if nq ≠ [] then { ws with quests := nq } else ws
    else ws
  let notes :=
    if qm.notifications ≠ [] then
      ["Quest updates:\n" ++ String.intercalate "\n" (qm.notifications.map (fun n => "- " ++ n))]
    else []
  (ws, notes)

/-- Result of `_update_world`.  `numTicks` is returned as a ghost output so
the specification can talk about the value passed to the Advance stage. -/
structure UpdateResult where
  world : WorldState
  last_action_type : String
  special_event : Option String := none
  extra_notes : String := ""
  numTicks : Int := 1
deriving DecidableEq, Inhabited

/-- The Advance-stage world mutation of `_update_world` after the metric
deltas have been computed: install the clamped metrics, apply the
event-engine stat deltas to the acting player, record the events and advance
the tick by `nt`. -/
def advanceWorld (w : WorldState) (uid : String) (m' : WorldMetrics) (evs : List Event)
    (nt : Int) (ee : EeResult) : WorldState :=
  let w1 := { w with metrics := m' }
  let w2 := applyStatsToPlayer w1 uid ee.player_stats_delta
  { w2 with last_events := evs, tick := w2.tick + nt }

/-- The quest-continuity stage followed by the quest-master stat deltas (the
tail of `_update_world`). -/
def questFinal (w : WorldState) (uid : String) (qm : QmResult) : WorldState × List String :=
  let qr := applyQuestStage w qm
  (applyStatsToPlayer qr.1 uid qm.player_stats_delta, qr.2)

/-- `DreamWeaverOrchestrator._update_world` (lines 518-730).  Oracles: `dw`
gives the dialogue-weaver response of the n-th TALK call, `ee` the
event-engine response, `qm` the quest-master response.  `Except.error` models
an uncaught Python exception aborting the turn. -/
def updateWorld (ws : WorldState) (uid : String) (actions : List Action)
    (dw : Nat → DwResult) (ee : EeResult) (qm : QmResult) :
    Except String UpdateResult :=
  let lat := match actions.getLast? with
    | some a => a.type
    | none => "WAIT"
  match lookupA ws.players uid with
  | none => .error "KeyError: user_id"
  | some _ =>
    let st := resolveLoop uid dw { world := ws } actions
    let extra1 :=
      if st.talkSnips ≠ [] then [String.intercalate "\n\n" st.talkSnips] else []
    match applyMetricsDelta st.world.metrics ee.metrics_delta with
    | .error e => .error e
    | .ok m' =>
      match buildEvents (st.world.tick + st.numTicks) ee.events with
      | .error e => .error e
      | .ok (evs, special) =>
        let w := advanceWorld st.world uid m' evs st.numTicks ee
        let qf := questFinal w uid qm
        let extra := String.intercalate "\n\n" (extra1 ++ qf.2)
        .ok
          { world := qf.1, last_action_type := lat, special_event := special
            extra_notes := extra, numTicks := st.numTicks }

/-- Freshness test of `_prune_inactive_players`: an entry is kept when its
timestamp converts to a number not older than the session timeout; a
conversion failure removes the entry. -/
def tsFresh (now : Q) (ts : Val) : Bool :=
  match pyFloat ts with
  | some t => !(decide (Qlt SESSION_TIMEOUT_SECONDS (qsub now t)))
  | none => false

/-- `DreamWeaverOrchestrator._prune_inactive_players` (lines 733-754):
remove stale or malformed entries, then close the world only when nobody is
left. -/
def pruneInactivePlayers (now : Q) (ws : WorldState) : WorldState :=
  let ap := ws.active_players.filter (fun p => tsFresh now p.2)
  let ws := { ws with active_players := ap }
  if ap.isEmpty then { ws with is_open := false } else ws

/-- `DreamWeaverOrchestrator.leave_world` (lines 495-516).  `load` is the
store adapter's answer; the returned world is the one passed to
`save_world` (`none` when the world does not exist and nothing is saved). -/
def leaveWorld (uid : String) (load : Option WorldState) (now : Q) : Option WorldState :=
  match load with
  | none => none
  | some ws =>
    let ws := pruneInactivePlayers now ws
    let ws := { ws with active_players := eraseA ws.active_players uid }
    let ws := if ws.active_players.isEmpty then { ws with is_open := false } else ws
    some ws

/-- `DreamWeaverOrchestrator.get_state_view` (lines 268-300).  `render` is
the ASCII renderer (pure formatting, excluded from the core).  The second
component is the world passed to `save_world`: always `none`, this path never
persists. -/
def getStateView (load : Option WorldState) (now : Q)
    (render : WorldState → String → Option String → String) :
    StateView × Option WorldState :=
  match load with
  | none =>
    ({ visual := "", story := "This world does not exist yet. Create it by sending an action." },
      none)
  | some ws =>
    let ws := pruneInactivePlayers now ws
    ({ visual := render ws "LOOK" none, story := ws.last_scene_text.getD "" }, none)

/-- The hard-coded fallback region used when the world-architect response
contains no regions (`orchestrator.py` lines 336-343). -/
def fallbackRawRegion : RawRegion :=
  { id := some "glass_whale_bay"
    name := some "Glass Whale Bay"
    type := "bay"
    description := "A floating city built on the back of a shimmering glass whale."
    neighbors := [] }

/-- Build one `Region` from a raw region object (lines 347-364): exits are
labelled `path1`, `path2`, ... from the neighbor list; a missing `id` raises. -/
def buildRegion (r : RawRegion) : Except String Region :=
  match r.id with
  | none => .error "KeyError: id"
  | some i =>
    .ok
      { id := i
        name := r.name.getD i
        description := r.description
        type := r.type
        neighbors := r.neighbors
        biome := r.biome
        known_to_player := true
        exits := r.neighbors.enum.map (fun p => ("path" ++ Nat.repr (p.1 + 1), p.2))
        local_quest_ids := r.local_quest_ids
        exit_flavor := r.exit_flavor }

/-- The region-dict construction loop. -/
def buildRegions (l : List RawRegion) : Except String (List (String × Region)) :=
  l.foldl
    (fun acc r =>
      match acc with
      | .error e => .error e
      | .ok m =>
        match buildRegion r with
        | .error e => .error e
        | .ok reg => .ok (insertA m reg.id reg))
    (.ok [])

/-- Build one starter `Character` (lines 408-419): a missing `id` raises and
`loyalty` goes through `float()` with default 0.5. -/
def mkCharacter (firstRegionId : String) (c : RawChar) : Except String Character :=
  match c.id with
  | none => .error "KeyError: id"
  | some i =>
    match (match c.loyalty with
           | none => some (qDec 5 1)
           | some v => pyFloat v) with
    | none => .error "float: malformed loyalty"
    | some loy =>
      .ok
        { id := i
          name := c.name.getD i
          role := c.role
          location_region_id := c.location_region_id.getD firstRegionId
          mood := c.mood
          loyalty := loy
          traits := c.traits
          memories := c.memories }

/-- The starter-character construction loop. -/
def buildCharacters (firstRegionId : String) (l : List RawChar) :
    Except String (List (String × Character)) :=
  l.foldl
    (fun acc c =>
      match acc with
      | .error e => .error e
      | .ok m =>
        match mkCharacter firstRegionId c with
        | .error e => .error e
        | .ok ch => .ok (insertA m ch.id ch))
    (.ok [])

/-- The player created lazily on first sight of a user id (lines 422-431),
with the `PlayerState` dataclass defaults for stats. -/
def defaultPlayer (uid firstRegionId : String) : PlayerState :=
  { user_id := uid
    character_id := uid ++ "_char"
    name := uid
    char_class := "wanderer"
    location_region_id := firstRegionId }

/-- The "ensure player exists" tail of `_load_or_init_world_state`: a new
player is placed in the world's first region; an empty region map raises
(`next(iter(...))` on an empty iterator). -/
def ensurePlayer (uid : String) (ws : WorldState) : Except String WorldState :=
  if (lookupA ws.players uid).isSome then .ok ws
  else
    match ws.regions.head? with
    | none => .error "StopIteration"
    | some (rid, _) => .ok (setPlayer ws uid (defaultPlayer uid rid))

/-- `DreamWeaverOrchestrator._load_or_init_world_state` (lines 303-433).
`load` is the store adapter's answer and `wa` the world-architect response
used only on the creation path.  On the load path the backward-compatibility
`hasattr` patches are no-ops here because the embedded `WorldState` always
carries every field. -/
def loadOrInitWorldState (uid wid seed : String) (load : Option WorldState) (wa : WaResult) :
    Except String WorldState :=
  match load with
  | some ws => ensurePlayer uid ws
  | none =>
    let regionsList := if wa.regions = [] then [fallbackRawRegion] else wa.regions
    match buildRegions regionsList with
    | .error e => .error e
    | .ok regionsDict =>
      -- `regions_list[0]["id"]`; the build above already raised on a missing id.
      let firstRegionId := (regionsList.head?.bind (fun r => r.id)).getD ""
      match buildCharacters firstRegionId wa.starter_characters with
      | .error e => .error e
      | .ok chars =>
        let ws : WorldState :=
          { world_id := wid
            seed_prompt := seed
            tick := 0
            regions := regionsDict
            characters := chars
            players := []
            quests := buildQuests wa.starter_quests
            metrics := {}
            history_summaries := wa.history_notes
            last_events := []
            active_players := []
            last_scene_text := none
            chat_log := []
            story_log := []
            world_size := wa.world_size }
        ensurePlayer uid ws

/-- Python `a or b` on strings. -/
def pyOrStr (a b : String) : String := if a ≠ "" then a else b

/-- The shared-history logging block of `handle_turn` / `apply_action_only`
(lines 128-134): append "`user: command`" and keep the last 50 entries; a
whitespace-only message logs nothing. -/
def logCommand (uid msg : String) (ws : WorldState) : WorldState :=
  let cmd := stripStr (pyOrStr msg "WAIT")
  if cmd ≠ "" then
    { ws with history_summaries := appendTrim 50 ws.history_summaries (uid ++ ": " ++ cmd) }
  else ws

/-- `DreamWeaverOrchestrator._parse_actions` applied to the interpreter
response: the action list, with a single WAIT synthesized when it is empty. -/
def parseActions (l : List Action) : List Action :=
  if l.isEmpty then [{ type := "WAIT" }] else l

/-- The story-text assembly of `handle_turn` (lines 170-186): narration,
extra notes, the trailing window of recent commands, and the suggestions. -/
def buildStoryText (sc : ScResult) (extra : String) (hist : List String) : String :=
  let s := sc.narration
  let s := if stripStr extra ≠ "" then s ++ "\n\n" ++ extra else s
  let s :=
    if hist ≠ [] then
      s ++ "\n\nRecent actions:\n" ++
        String.join ((lastN 10 hist).map (fun line => "- " ++ line ++ "\n"))
    else s
  let s :=
    s ++ "\n\nSuggested actions:\n" ++
      String.join (sc.suggested_actions.enum.map
        (fun p => "  " ++ Nat.repr (p.1 + 1) ++ ") " ++ p.2 ++ "\n"))
  s ++ "Or type your own action."

/-- `DreamWeaverOrchestrator.handle_turn` (lines 107-211), the full-turn
pipeline.  Oracle parameters: `load` (store adapter), `wa` (world architect),
`ci` (already-parsed command-interpreter actions), `dw`/`ee`/`qm`/`sc`
(per-stage collaborators), `render` (ASCII renderer).  The wall clock is a
single `now` for the whole turn.  Returns the world passed to `save_world`
and the combined text returned to the caller. -/
def handleTurn (uid wid msg : String) (seedIfNew : Option String) (now : Q)
    (load : Option WorldState) (wa : WaResult) (ci : List Action)
    (dw : Nat → DwResult) (ee : EeResult) (qm : QmResult) (sc : ScResult)
    (render : WorldState → String → Option String → String) :
    Except String (WorldState × String) :=
  let seed := pyOrStr (seedIfNew.getD "") (pyOrStr msg "Create a new world.")
  match loadOrInitWorldState uid wid seed load wa with
  | .error e => .error e
  | .ok ws =>
    let ws := pruneInactivePlayers now ws
    let ws := { ws with active_players := insertA ws.active_players uid (Val.num now),
                        is_open := true }
    let ws := logCommand uid msg ws
    let actions := parseActions ci
    match updateWorld ws uid actions dw ee qm with
    | .error e => .error e
    | .ok r =>
      let story := buildStoryText sc r.extra_notes r.world.history_summaries
      let visual := render r.world r.last_action_type r.special_event
      let w := { r.world with last_scene_text := some story }
      let entry : StoryEntry :=
        { tick := w.tick, user_id := uid, message := msg, text := story, timestamp := now }
      let w := { w with story_log := appendTrim 100 w.story_log entry }
      .ok (w, visual ++ "\n\n" ++ story)

/-- `DreamWeaverOrchestrator.apply_action_only` (lines 215-265): the
action-only pipeline variant, skipping narration and rendering.  Returns the
world passed to `save_world`. -/
def applyActionOnly (uid wid msg : String) (seedIfNew : Option String) (now : Q)
    (load : Option WorldState) (wa : WaResult) (ci : List Action)
    (dw : Nat → DwResult) (ee : EeResult) (qm : QmResult) :
    Except String WorldState :=
  let seed := pyOrStr (seedIfNew.getD "") (pyOrStr msg "Create a new world.")
  match loadOrInitWorldState uid wid seed load wa with
  | .error e => .error e
  | .ok ws =>
    let ws := pruneInactivePlayers now ws
    let ws := { ws with active_players := insertA ws.active_players uid (Val.num now),
                        is_open := true }
    let ws := logCommand uid msg ws
    let actions := parseActions ci
    match updateWorld ws uid actions dw ee qm with
    | .error e => .error e
    | .ok r => .ok r.world

/-! ### Infrastructure lemmas -/

theorem lookupA_replaceA {α : Type} (m : List (String × α)) (k : String) (v : α)
    (h : m.any (fun p => p.1 == k) = true) : lookupA (replaceA m k v) k = some v := by
  induction m with
  | nil => simp at h
  | cons hd tl ih =>
    by_cases hhd : (hd.1 == k) = true
    · simp [replaceA, lookupA, List.find?, hhd]
    · have hb : (hd.1 == k) = false := by simpa using hhd
      have htl : tl.any (fun p => p.1 == k) = true := by
        simpa [List.any_cons, hb] using h
      simpa [replaceA, lookupA, List.find?, hb] using ih htl

theorem lookupA_append_new {α : Type} (m : List (String × α)) (k : String) (v : α)
    (h : m.any (fun p => p.1 == k) = false) : lookupA (m ++ [(k, v)]) k = some v := by
  induction m with
  | nil => simp [lookupA, List.find?]
  | cons hd tl ih =>
    rw [List.any_cons, Bool.or_eq_false_iff] at h
    obtain ⟨hb, htl⟩ := h
    simpa [lookupA, List.find?, hb] using ih htl

theorem lookupA_insertA {α : Type} (m : List (String × α)) (k : String) (v : α) :
    lookupA (insertA m k v) k = some v := by
  unfold insertA
  by_cases h : m.any (fun p => p.1 == k) = true
  · rw [if_pos h]
    exact lookupA_replaceA m k v h
  · rw [if_neg h]
    have hf : m.any (fun p => p.1 == k) = false := by
      cases hv : m.any (fun p => p.1 == k)
      · rfl
      · exact absurd hv h
    exact lookupA_append_new m k v hf

theorem appendTrim_length {α : Type} (cap : Nat) (l : List α) (x : α) :
    (appendTrim cap l x).length ≤ cap := by
  unfold appendTrim lastN
  by_cases h : (l ++ [x]).length > cap
  · rw [if_pos h]
    simp only [List.length_drop]
    omega
  · rw [if_neg h]
    omega

theorem appendTrim_suffix {α : Type} (cap : Nat) (l : List α) (x : α) :
    (appendTrim cap l x) <:+ l ++ [x] := by
  unfold appendTrim lastN
  by_cases h : (l ++ [x]).length > cap
  · rw [if_pos h]
    exact List.drop_suffix _ _
  · rw [if_neg h]

/-- Fields of the world that the per-action resolution loop never touches. -/
def EqCore (a b : WorldState) : Prop :=
  a.tick = b.tick ∧ a.quests = b.quests ∧ a.history_summaries = b.history_summaries ∧
    a.story_log = b.story_log ∧ a.metrics = b.metrics ∧ a.regions = b.regions ∧
    a.active_players = b.active_players

theorem EqCore_refl (a : WorldState) : EqCore a a := by
  unfold EqCore
  exact ⟨rfl, rfl, rfl, rfl, rfl, rfl, rfl⟩

theorem EqCore_trans {a b c : WorldState} (h1 : EqCore a b) (h2 : EqCore b c) : EqCore a c := by
  unfold EqCore at *
  obtain ⟨e1, e2, e3, e4, e5, e6, e7⟩ := h1
  obtain ⟨f1, f2, f3, f4, f5, f6, f7⟩ := h2
  exact ⟨e1.trans f1, e2.trans f2, e3.trans f3, e4.trans f4, e5.trans f5, e6.trans f6,
    e7.trans f7⟩

theorem setPlayer_core (ws : WorldState) (uid : String) (p : PlayerState) :
    EqCore (setPlayer ws uid p) ws := by
  unfold setPlayer EqCore
  exact ⟨rfl, rfl, rfl, rfl, rfl, rfl, rfl⟩

theorem setPlayer_chat (ws : WorldState) (uid : String) (p : PlayerState) :
    (setPlayer ws uid p).chat_log = ws.chat_log := rfl

theorem setPlayer_characters (ws : WorldState) (uid : String) (p : PlayerState) :
    (setPlayer ws uid p).characters = ws.characters := rfl

theorem applyStatsToPlayer_core (ws : WorldState) (uid : String) (d : List (String × Val)) :
    EqCore (applyStatsToPlayer ws uid d) ws ∧
      (applyStatsToPlayer ws uid d).chat_log = ws.chat_log ∧
      (applyStatsToPlayer ws uid d).characters = ws.characters := by
  unfold applyStatsToPlayer
  match lookupA ws.players uid with
  | some p => exact ⟨setPlayer_core _ _ _, rfl, rfl⟩
  | none => exact ⟨EqCore_refl _, rfl, rfl⟩


theorem resolveOne_core (uid : String) (dw : Nat → DwResult) (st : ResolveSt) (a : Action) :
    EqCore (resolveOne uid dw st a).world st.world ∧
      (st.world.chat_log.length ≤ 200 → (resolveOne uid dw st a).world.chat_log.length ≤ 200) ∧
      (resolveOne uid dw st a).numTicks =
        (if a.type == "FAST_FORWARD" then max 1 (ffDays a) else st.numTicks) := by
  unfold resolveOne
  by_cases hM : (a.type == "MOVE" && truthyS a.target_region_id) = true
  · have hMt : (a.type == "MOVE") = true := by
      revert hM
      cases h : (a.type == "MOVE") <;> simp
    have ht : a.type = "MOVE" := by simpa using hMt
    have hff : (a.type == "FAST_FORWARD") = false := by simp [ht]
    rw [if_pos hM]
    by_cases hR : ((lookupA st.world.regions (a.target_region_id.getD "")).isSome) = true
    · rw [if_pos hR]
      cases hL : lookupA st.world.players uid with
      | some p =>
        dsimp only
        exact ⟨setPlayer_core _ _ _, fun h => h, by simp [hff]⟩
      | none =>
        dsimp only
        exact ⟨EqCore_refl _, fun h => h, by simp [hff]⟩
    · rw [if_neg hR]
      exact ⟨EqCore_refl _, fun h => h, by simp [hff]⟩
  · rw [if_neg hM]
    by_cases hF : (a.type == "FAST_FORWARD") = true
    · rw [if_pos hF]
      exact ⟨EqCore_refl _, fun h => h, by simp [hF]⟩
    · rw [if_neg hF]
      have hff : (a.type == "FAST_FORWARD") = false := by
        cases hv : (a.type == "FAST_FORWARD")
        · rfl
        · exact absurd hv hF
      by_cases hTt : (a.type == "TALK") = true
      · rw [if_pos hTt]
        cases hT2 : findTargetPlayer st.world a.target_character_id with
        | some tp =>
          dsimp only
          cases hU : lookupA a.params "utterance" with
          | some line =>
            dsimp only
            by_cases hTr : valTruthy line = true
            · rw [if_pos hTr]
              refine ⟨⟨rfl, rfl, rfl, rfl, rfl, rfl, rfl⟩, ?_, by simp [hff]⟩
              intro _
              exact appendTrim_length _ _ _
            · rw [if_neg hTr]
              exact ⟨EqCore_refl _, fun h => h, by simp [hff]⟩
          | none =>
            dsimp only
            exact ⟨EqCore_refl _, fun h => h, by simp [hff]⟩
        | none =>
          dsimp only
          cases hN : (if truthyS a.target_character_id then
              lookupA st.world.characters (a.target_character_id.getD "") else none) with
          | some c =>
            dsimp only
            refine ⟨EqCore_trans (applyStatsToPlayer_core _ _ _).1
              ⟨rfl, rfl, rfl, rfl, rfl, rfl, rfl⟩, ?_, by simp [hff]⟩
            intro h
            rw [(applyStatsToPlayer_core _ _ _).2.1]
            exact h
          | none =>
            dsimp only
            refine ⟨(applyStatsToPlayer_core _ _ _).1, ?_, by simp [hff]⟩
            intro h
            rw [(applyStatsToPlayer_core _ _ _).2.1]
            exact h
      · rw [if_neg hTt]
        exact ⟨EqCore_refl _, fun h => h, by simp [hff]⟩


/-- Specification of the `num_ticks` fold: last FAST_FORWARD wins. -/
def ntSpec (n : Int) (acts : List Action) : Int :=
  acts.foldl (fun m a => if a.type == "FAST_FORWARD" then max 1 (ffDays a) else m) n

/-- The last FAST_FORWARD action of a list, if any. -/
def lastFF (acts : List Action) : Option Action :=
  acts.foldl (fun acc a => if a.type == "FAST_FORWARD" then some a else acc) none

theorem resolveLoop_core (uid : String) (dw : Nat → DwResult) :
    ∀ (acts : List Action) (st : ResolveSt),
      EqCore (resolveLoop uid dw st acts).world st.world ∧
        (st.world.chat_log.length ≤ 200 →
          (resolveLoop uid dw st acts).world.chat_log.length ≤ 200) ∧
        (resolveLoop uid dw st acts).numTicks = ntSpec st.numTicks acts := by
  intro acts
  induction acts with
  | nil =>
    intro st
    exact ⟨EqCore_refl _, fun h => h, rfl⟩
  | cons a rest ih =>
    intro st
    have h1 := resolveOne_core uid dw st a
    have h2 := ih (resolveOne uid dw st a)
    refine ⟨EqCore_trans h2.1 h1.1, ?_, ?_⟩
    · intro h
      exact h2.2.1 (h1.2.1 h)
    · show (resolveLoop uid dw (resolveOne uid dw st a) rest).numTicks = _
      rw [h2.2.2, h1.2.2]
      rfl

theorem ntSpec_lastFF :
    ∀ (acts : List Action) (n : Int) (acc : Option Action),
      (∀ b, acc = some b → n = max 1 (ffDays b)) →
      ∀ a, acts.foldl (fun acc x => if x.type == "FAST_FORWARD" then some x else acc) acc = some a →
        ntSpec n acts = max 1 (ffDays a) := by
  intro acts
  induction acts with
  | nil =>
    intro n acc hinv a hfold
    simpa [ntSpec] using hinv a hfold
  | cons x rest ih =>
    intro n acc hinv a hfold
    by_cases hx : (x.type == "FAST_FORWARD") = true
    · have hxe : x.type = "FAST_FORWARD" := by simpa using hx
      have : ntSpec n (x :: rest) = ntSpec (max 1 (ffDays x)) rest := by
        simp [ntSpec, hxe]
      rw [this]
      refine ih (max 1 (ffDays x)) (some x) ?_ a ?_
      · intro b hb
        rw [List.foldl] at hfold
        simp [hx] at hb
        rw [← hb]
      · rw [List.foldl] at hfold
        simpa [hx] using hfold
    · have hxf : (x.type == "FAST_FORWARD") = false := by
        cases hv : (x.type == "FAST_FORWARD")
        · rfl
        · exact absurd hv hx
      have hxe : ¬ x.type = "FAST_FORWARD" := by simpa using hxf
      have : ntSpec n (x :: rest) = ntSpec n rest := by simp [ntSpec, hxe]
      rw [this]
      refine ih _ _ hinv a ?_
      rw [List.foldl] at hfold
      simpa [hxf] using hfold


theorem applyQuestStage_first (ws : WorldState) (qm : QmResult) :
    (applyQuestStage ws qm).1.metrics = ws.metrics ∧
      (applyQuestStage ws qm).1.history_summaries = ws.history_summaries ∧
      (applyQuestStage ws qm).1.story_log = ws.story_log ∧
      (applyQuestStage ws qm).1.chat_log = ws.chat_log ∧
      (applyQuestStage ws qm).1.tick = ws.tick ∧
      (applyQuestStage ws qm).1.players = ws.players ∧
      (applyQuestStage ws qm).1.quests =
        (if qm.quests ≠ [] ∧ buildQuests qm.quests ≠ [] then buildQuests qm.quests
         else ws.quests) := by
  unfold applyQuestStage
  by_cases hq : qm.quests ≠ []
  · rw [if_pos hq]
    by_cases hb : buildQuests qm.quests ≠ []
    · rw [if_pos hb]
      refine ⟨rfl, rfl, rfl, rfl, rfl, rfl, ?_⟩
      dsimp only
      rw [if_pos ⟨hq, hb⟩]
    · rw [if_neg hb]
      refine ⟨rfl, rfl, rfl, rfl, rfl, rfl, ?_⟩
      dsimp only
      rw [if_neg (fun hc => hb hc.2)]
  · rw [if_neg hq]
    refine ⟨rfl, rfl, rfl, rfl, rfl, rfl, ?_⟩
    dsimp only
    rw [if_neg (fun hc => hq hc.1)]

theorem advanceWorld_fields (w : WorldState) (uid : String) (m' : WorldMetrics)
    (evs : List Event) (nt : Int) (ee : EeResult) :
    (advanceWorld w uid m' evs nt ee).metrics = m' ∧
      (advanceWorld w uid m' evs nt ee).history_summaries = w.history_summaries ∧
      (advanceWorld w uid m' evs nt ee).story_log = w.story_log ∧
      (advanceWorld w uid m' evs nt ee).chat_log = w.chat_log ∧
      (advanceWorld w uid m' evs nt ee).tick = w.tick + nt ∧
      (advanceWorld w uid m' evs nt ee).quests = w.quests := by
  unfold advanceWorld
  obtain ⟨⟨htick, hq, hhist, hstory, hmet, hreg, hact⟩, hchat, hchars⟩ :=
    applyStatsToPlayer_core ({ w with metrics := m' }) uid ee.player_stats_delta
  refine ⟨hmet, hhist, hstory, hchat, ?_, hq⟩
  dsimp only
  rw [htick]

theorem questFinal_fields (w : WorldState) (uid : String) (qm : QmResult) :
    (questFinal w uid qm).1.metrics = w.metrics ∧
      (questFinal w uid qm).1.history_summaries = w.history_summaries ∧
      (questFinal w uid qm).1.story_log = w.story_log ∧
      (questFinal w uid qm).1.chat_log = w.chat_log ∧
      (questFinal w uid qm).1.tick = w.tick ∧
      (questFinal w uid qm).1.quests =
        (if qm.quests ≠ [] ∧ buildQuests qm.quests ≠ [] then buildQuests qm.quests
         else w.quests) := by
  unfold questFinal
  obtain ⟨hmet, hhist, hstory, hchat, htick, hpl, hqsts⟩ := applyQuestStage_first w qm
  obtain ⟨⟨htick2, hq2, hhist2, hstory2, hmet2, hreg2, hact2⟩, hchat2, hchars2⟩ :=
    applyStatsToPlayer_core (applyQuestStage w qm).1 uid qm.player_stats_delta
  exact ⟨hmet2.trans hmet, hhist2.trans hhist, hstory2.trans hstory, hchat2.trans hchat,
    htick2.trans htick, hq2.trans hqsts⟩

theorem updateWorld_ok {ws : WorldState} {uid : String} {actions : List Action}
    {dw : Nat → DwResult} {ee : EeResult} {qm : QmResult} {res : UpdateResult}
    (h : updateWorld ws uid actions dw ee qm = .ok res) :
    ∃ m', applyMetricsDelta ws.metrics ee.metrics_delta = Except.ok m' ∧
      res.world.metrics = m' ∧
      res.world.history_summaries = ws.history_summaries ∧
      res.world.story_log = ws.story_log ∧
      (ws.chat_log.length ≤ 200 → res.world.chat_log.length ≤ 200) ∧
      res.numTicks = ntSpec 1 actions ∧
      res.world.tick = ws.tick + res.numTicks ∧
      res.world.quests =
        (if qm.quests ≠ [] ∧ buildQuests qm.quests ≠ [] then buildQuests qm.quests
         else ws.quests) := by
  unfold updateWorld at h
  dsimp only at h
  split at h
  · exact absurd h (by simp)
  · split at h
    · exact absurd h (by simp)
    · split at h
      · exact absurd h (by simp)
      · rename_i mval hmet escr evs special heva
        rw [Except.ok.injEq] at h
        obtain ⟨⟨hltick, hlq, hlhist, hlstory, hlmet, hlreg, hlact⟩, hlchat, hlnt⟩ :=
          resolveLoop_core uid dw actions { world := ws }
        obtain ⟨ham, hah, has, hac, hat, haq⟩ :=
          advanceWorld_fields
            (resolveLoop uid dw { world := ws } actions).world uid mval evs
            (resolveLoop uid dw { world := ws } actions).numTicks ee
        obtain ⟨hfm, hfh, hfs, hfc, hft, hfq⟩ :=
          questFinal_fields
            (advanceWorld (resolveLoop uid dw { world := ws } actions).world uid mval evs
              (resolveLoop uid dw { world := ws } actions).numTicks ee) uid qm
        subst h
        dsimp only at hltick hlq hlhist hlstory hlmet hlreg hlact hlchat hlnt ⊢
        refine ⟨mval, ?_, ?_, ?_, ?_, ?_, ?_, ?_, ?_⟩
        · rw [hlmet] at hmet
          exact hmet
        · exact hfm.trans ham
        · exact hfh.trans (hah.trans hlhist)
        · exact hfs.trans (has.trans hlstory)
        · intro hcl
          rw [hfc, hac]
          exact hlchat hcl
        · exact hlnt
        · rw [hft, hat, hltick]
        · rw [hfq, haq, hlq]


/-! ### Test fixtures for witnesses and counterexamples -/

instance {e a : Type} [DecidableEq e] [DecidableEq a] : DecidableEq (Except e a)
  | .error x, .error y =>
    match decEq x y with
    | isTrue h => isTrue (by rw [h])
    | isFalse hne => isFalse (fun hc => hne (by cases hc; rfl))
  | .error _, .ok _ => isFalse (fun hc => by cases hc)
  | .ok _, .error _ => isFalse (fun hc => by cases hc)
  | .ok x, .ok y =>
    match decEq x y with
    | isTrue h => isTrue (by rw [h])
    | isFalse hne => isFalse (fun hc => hne (by cases hc; rfl))

/-- A minimal one-region, one-player world used by concrete witnesses. -/
def testRegion : Region := { id := "r0", name := "R0", description := "" }

/-- Witness world fixture. -/
def testW : WorldState :=
  { world_id := "w", seed_prompt := "s", tick := 0
    regions := [("r0", testRegion)]
    characters := [], players := [("u", defaultPlayer "u" "r0")], quests := []
    metrics := {}, history_summaries := [], last_events := [], active_players := [] }

/-- Trivial dialogue-weaver oracle (always the empty response). -/
def dwTriv : Nat → DwResult := fun _ => {}

/-- A FAST_FORWARD action with the given `days` value. -/
def ffAct (d : Val) : Action := { type := "FAST_FORWARD", params := [("days", d)] }

/-! ### C1 -/

/-- C1: for every turn whose interpreted action list contains a
FAST_FORWARD, the turn's `num_ticks` equals `max(1, days)` where `days` is
the parsed `params.days` of the last FAST_FORWARD in list order (1 on parse
failure or missing key), and the world's tick counter advances by exactly
`num_ticks`. -/
theorem c1_fast_forward_last_wins (ws : WorldState) (uid : String) (actions : List Action)
    (dw : Nat → DwResult) (ee : EeResult) (qm : QmResult) (res : UpdateResult) (a : Action)
    (hok : updateWorld ws uid actions dw ee qm = Except.ok res)
    (hlast : lastFF actions = some a) :
    res.numTicks = max 1 (ffDays a) ∧ res.world.tick = ws.tick + res.numTicks := by
  obtain ⟨m', _, _, _, _, _, hnt, htick, _⟩ := updateWorld_ok hok
  refine ⟨?_, htick⟩
  rw [hnt]
  exact ntSpec_lastFF actions 1 none (fun b hb => by cases hb) a hlast

/-- Result of the C1 witness run with `days = "5"`. -/
def c1res : UpdateResult :=
  (updateWorld testW "u" [ffAct (Val.str "5")] dwTriv {} {}).toOption.getD default

/-- Result of the C1 witness run with a missing `days` key. -/
def c1resMissing : UpdateResult :=
  (updateWorld testW "u" [{ type := "FAST_FORWARD" }] dwTriv {} {}).toOption.getD default

theorem c1_fast_forward_last_wins_witness :
    (updateWorld testW "u" [ffAct (Val.str "5")] dwTriv {} {} = Except.ok c1res ∧
      c1res.numTicks = 5 ∧ c1res.world.tick = 5) ∧
    (updateWorld testW "u" [{ type := "FAST_FORWARD" }] dwTriv {} {} = Except.ok c1resMissing ∧
      c1resMissing.numTicks = 1 ∧ c1resMissing.world.tick = 1) := by
  have hok1 : updateWorld testW "u" [ffAct (Val.str "5")] dwTriv {} {} = Except.ok c1res := by
    decide
  have hok2 : updateWorld testW "u" [{ type := "FAST_FORWARD" }] dwTriv {} {} =
      Except.ok c1resMissing := by decide
  have h1 := c1_fast_forward_last_wins testW "u" [ffAct (Val.str "5")] dwTriv {} {} c1res
    (ffAct (Val.str "5")) hok1 (by decide)
  have h2 := c1_fast_forward_last_wins testW "u" [{ type := "FAST_FORWARD" }] dwTriv {} {}
    c1resMissing ({ type := "FAST_FORWARD" }) hok2 (by decide)
  refine ⟨⟨hok1, ?_, ?_⟩, ⟨hok2, ?_, ?_⟩⟩
  · rw [h1.1]; decide
  · rw [h1.2, h1.1]; decide
  · rw [h2.1]; decide
  · rw [h2.2, h2.1]; decide

/-! ### C2 -/

/-- All four metric fields lie in `[0,1]`. -/
def inRange01 (m : WorldMetrics) : Prop :=
  (Qle (qInt 0) m.world_health ∧ Qle m.world_health (qInt 1)) ∧
    (Qle (qInt 0) m.chaos_level ∧ Qle m.chaos_level (qInt 1)) ∧
    (Qle (qInt 0) m.magic_level ∧ Qle m.magic_level (qInt 1)) ∧
    (Qle (qInt 0) m.alliance_tension ∧ Qle m.alliance_tension (qInt 1))

instance (m : WorldMetrics) : Decidable (inRange01 m) := by
  unfold inRange01
  infer_instance

/-- Every value of the delta map is numeric. -/
def metricsNumeric (d : List (String × Val)) : Prop := ∀ p ∈ d, (pyFloat p.2).isSome = true

instance (d : List (String × Val)) : Decidable (metricsNumeric d) := by
  unfold metricsNumeric
  infer_instance

/-- A successful metric-delta application produces clamped fields. -/
theorem applyMetricsDelta_range {m m' : WorldMetrics} {d : List (String × Val)}
    (h : applyMetricsDelta m d = Except.ok m') : inRange01 m' := by
  unfold applyMetricsDelta at h
  split at h
  · exact absurd h (by simp)
  · split at h
    · exact absurd h (by simp)
    · split at h
      · exact absurd h (by simp)
      · split at h
        · exact absurd h (by simp)
        · rw [Except.ok.injEq] at h
          subst h
          exact ⟨clamp01_mem _, clamp01_mem _, clamp01_mem _, clamp01_mem _⟩

/-- A numeric delta map never makes `float()` raise. -/
theorem pyFloatDefault0_ok {d : List (String × Val)} (hnum : metricsNumeric d) (k : String) :
    ∃ q, pyFloatDefault0 (lookupA d k) = Except.ok q := by
  unfold pyFloatDefault0
  cases hl : lookupA d k with
  | none => exact ⟨qInt 0, rfl⟩
  | some v =>
    unfold lookupA at hl
    cases hf : (d.find? (fun p => p.1 == k)) with
    | none => rw [hf] at hl; cases hl
    | some p =>
      rw [hf] at hl
      have hpv : p.2 = v := by simpa using hl
      have hmem : p ∈ d := List.mem_of_find?_eq_some hf
      have := hnum p hmem
      rw [hpv] at this
      cases hq : pyFloat v with
      | none => rw [hq] at this; cases this
      | some q =>
        refine ⟨q, ?_⟩
        dsimp only
        rw [hq]

/-- C2: starting from in-range metrics, any numeric metric delta (any sign
or magnitude) is applied without error and leaves all four metric fields in
`[0,1]`; moreover every successful `_update_world` run ends with in-range
metrics. -/
theorem c2_metrics_clamped :
    (∀ (m : WorldMetrics) (d : List (String × Val)), inRange01 m → metricsNumeric d →
      ∃ m', applyMetricsDelta m d = Except.ok m' ∧ inRange01 m') ∧
    (∀ (ws : WorldState) (uid : String) (actions : List Action) (dw : Nat → DwResult)
      (ee : EeResult) (qm : QmResult) (res : UpdateResult),
      updateWorld ws uid actions dw ee qm = Except.ok res → inRange01 res.world.metrics) := by
  constructor
  · intro m d _ hnum
    obtain ⟨q1, h1⟩ := pyFloatDefault0_ok hnum "world_health"
    obtain ⟨q2, h2⟩ := pyFloatDefault0_ok hnum "chaos_level"
    obtain ⟨q3, h3⟩ := pyFloatDefault0_ok hnum "magic_level"
    obtain ⟨q4, h4⟩ := pyFloatDefault0_ok hnum "alliance_tension"
    have hok : applyMetricsDelta m d = Except.ok
        { world_health := clamp01 (qadd m.world_health q1)
          chaos_level := clamp01 (qadd m.chaos_level q2)
          magic_level := clamp01 (qadd m.magic_level q3)
          alliance_tension := clamp01 (qadd m.alliance_tension q4) } := by
      unfold applyMetricsDelta
      rw [h1, h2, h3, h4]
    exact ⟨_, hok, applyMetricsDelta_range hok⟩
  · intro ws uid actions dw ee qm res hok
    obtain ⟨m', hm, hres, _⟩ := updateWorld_ok hok
    rw [hres]
    exact applyMetricsDelta_range hm

theorem c2_metrics_clamped_witness :
    (∃ m', applyMetricsDelta {} [("world_health", Val.num (qInt (-50))),
        ("chaos_level", Val.str "99.5")] = Except.ok m' ∧ inRange01 m') ∧
    inRange01 c1res.world.metrics := by
  constructor
  · exact c2_metrics_clamped.1 {} _ (by decide) (by decide)
  · exact c2_metrics_clamped.2 testW "u" [ffAct (Val.str "5")] dwTriv {} {} c1res (by decide)


/-! ### C3 -/

/-- Event-engine response carrying a malformed (non-numeric) world-metric
delta. -/
def c3ee : EeResult := { metrics_delta := [("world_health", Val.str "abc")] }

/-- C3 counterexample: a malformed world-metric delta is NOT caught — the
`float()` call in the Advance stage raises and the turn aborts, instead of
retaining the prior value. -/
theorem c3_malformed_metric_aborts_turn :
    updateWorld testW "u" [{ type := "WAIT" }] dwTriv c3ee {} =
      Except.error "float: malformed metrics delta" := by
  decide

/-- C3 (amended): a malformed player-stat delta and a malformed NPC-loyalty
delta are caught and ignored with the prior value retained, but a malformed
world-metric delta raises an uncaught error that aborts the turn. -/
theorem c3_malformed_delta_handling :
    (∀ (stats : List (String × Q)) (name : String) (x : Q) (v : Val),
      pyFloat v = none → lookupA stats name = some x →
      lookupA (applyStatChanges stats [(name, v)]) name = some x) ∧
    (∀ (loy : Q) (v : Val), pyFloat v = none → applyLoyaltyDelta loy (some v) = loy) ∧
    (∀ (m : WorldMetrics) (d : List (String × Val)) (v : Val),
      lookupA d "world_health" = some v → pyFloat v = none →
      ∃ e, applyMetricsDelta m d = Except.error e) := by
  refine ⟨?_, ?_, ?_⟩
  · intro stats name x v hv hlook
    have hstep : applyStatChanges stats [(name, v)] = insertA stats name x := by
      unfold applyStatChanges
      simp [hlook, hv]
    rw [hstep]
    exact lookupA_insertA _ _ _
  · intro loy v hv
    unfold applyLoyaltyDelta
    dsimp only
    rw [hv]
  · intro m d v hl hv
    have hfail : pyFloatDefault0 (lookupA d "world_health") =
        Except.error "float: malformed metrics delta" := by
      unfold pyFloatDefault0
      rw [hl]
      dsimp only
      rw [hv]
    unfold applyMetricsDelta
    rw [hfail]
    exact ⟨_, rfl⟩

theorem c3_malformed_delta_handling_witness :
    lookupA (applyStatChanges [("courage", qDec 5 1)] [("courage", Val.str "abc")]) "courage" =
        some (qDec 5 1) ∧
      applyLoyaltyDelta (qDec 5 1) (some (Val.str "zzz")) = qDec 5 1 ∧
      ∃ e, applyMetricsDelta {} [("world_health", Val.null)] = Except.error e := by
  refine ⟨?_, ?_, ?_⟩
  · exact c3_malformed_delta_handling.1 [("courage", qDec 5 1)] "courage" (qDec 5 1)
      (Val.str "abc") (by decide) (by decide)
  · exact c3_malformed_delta_handling.2.1 (qDec 5 1) (Val.str "zzz") (by decide)
  · exact c3_malformed_delta_handling.2.2 {} [("world_health", Val.null)] Val.null
      (by decide) (by decide)

/-! ### C5 -/

/-- C5: a TALK action whose target identifier resolves to a player who is
not in `active_players` emits the "not around right now" notice, makes no
dialogue-collaborator call (the call counter is unchanged) and mutates no
NPC (character) state. -/
theorem c5_talk_inactive_player (uid : String) (dw : Nat → DwResult) (st : ResolveSt)
    (a : Action) (tp : PlayerState)
    (htype : a.type = "TALK")
    (hfind : findTargetPlayer st.world a.target_character_id = some tp)
    (hinact : lookupA st.world.active_players tp.user_id = none) :
    (resolveOne uid dw st a).world.characters = st.world.characters ∧
      (resolveOne uid dw st a).dwIdx = st.dwIdx ∧
      (resolveOne uid dw st a).talkSnips = st.talkSnips ++ [notAroundMsg tp.name] := by
  unfold resolveOne
  have hM : ¬ (a.type == "MOVE" && truthyS a.target_region_id) = true := by
    simp [htype]
  have hF : ¬ (a.type == "FAST_FORWARD") = true := by simp [htype]
  have hT : (a.type == "TALK") = true := by simp [htype]
  rw [if_neg hM, if_neg hF, if_pos hT, hfind]
  try dsimp only
  rw [hinact]
  try dsimp only
  cases hU : lookupA a.params "utterance" with
  | none =>
    dsimp only
    exact ⟨rfl, rfl, rfl⟩
  | some line =>
    dsimp only
    by_cases hTr : valTruthy line = true
    · rw [if_pos hTr]
      exact ⟨rfl, rfl, rfl⟩
    · rw [if_neg hTr]
      exact ⟨rfl, rfl, rfl⟩

/-- Two-player witness world: `u` is active, `v` exists but is inactive. -/
def testW2 : WorldState :=
  { testW with
    players := [("u", defaultPlayer "u" "r0"), ("v", defaultPlayer "v" "r0")]
    active_players := [("u", Val.num (qInt 0))] }

theorem c5_talk_inactive_player_witness :
    (resolveOne "u" dwTriv { world := testW2 }
        { type := "TALK", target_character_id := some "v" }).world.characters =
        testW2.characters ∧
      (resolveOne "u" dwTriv { world := testW2 }
        { type := "TALK", target_character_id := some "v" }).dwIdx = 0 ∧
      (resolveOne "u" dwTriv { world := testW2 }
        { type := "TALK", target_character_id := some "v" }).talkSnips =
        [notAroundMsg "v"] := by
  have h := c5_talk_inactive_player "u" dwTriv { world := testW2 }
    { type := "TALK", target_character_id := some "v" } (defaultPlayer "v" "r0")
    rfl (by decide) (by decide)
  refine ⟨h.1, h.2.1, ?_⟩
  rw [h.2.2]
  decide


/-! ### Presence lemmas -/

theorem lookupA_eraseA {α : Type} (m : List (String × α)) (k : String) :
    lookupA (eraseA m k) k = none := by
  induction m with
  | nil => rfl
  | cons hd tl ih =>
    by_cases hk : (hd.1 == k) = true
    · have hb : (hd.1 != k) = false := by simp [bne, hk]
      simp only [eraseA, List.filter, hb]
      simp only [eraseA] at ih
      exact ih
    · have hkf : (hd.1 == k) = false := by
        cases hv : (hd.1 == k)
        · rfl
        · exact absurd hv hk
      have hb : (hd.1 != k) = true := by simp [bne, hkf]
      simp only [eraseA, List.filter, hb]
      simp only [lookupA, List.find?, hkf]
      simp only [eraseA, lookupA] at ih
      exact ih

theorem prune_active (now : Q) (ws : WorldState) :
    (pruneInactivePlayers now ws).active_players =
      ws.active_players.filter (fun p => tsFresh now p.2) := by
  unfold pruneInactivePlayers
  by_cases hap : (ws.active_players.filter (fun p => tsFresh now p.2)).isEmpty = true
  · rw [if_pos hap]
  · rw [if_neg hap]

theorem prune_is_open (now : Q) (ws : WorldState) :
    (pruneInactivePlayers now ws).is_open =
      (if (ws.active_players.filter (fun p => tsFresh now p.2)).isEmpty then false
       else ws.is_open) := by
  unfold pruneInactivePlayers
  by_cases hap : (ws.active_players.filter (fun p => tsFresh now p.2)).isEmpty = true
  · rw [if_pos hap, if_pos hap]
  · rw [if_neg hap, if_neg hap]

theorem prune_others (now : Q) (ws : WorldState) :
    (pruneInactivePlayers now ws).players = ws.players ∧
      (pruneInactivePlayers now ws).history_summaries = ws.history_summaries ∧
      (pruneInactivePlayers now ws).chat_log = ws.chat_log ∧
      (pruneInactivePlayers now ws).story_log = ws.story_log ∧
      (pruneInactivePlayers now ws).tick = ws.tick ∧
      (pruneInactivePlayers now ws).regions = ws.regions ∧
      (pruneInactivePlayers now ws).metrics = ws.metrics ∧
      (pruneInactivePlayers now ws).quests = ws.quests ∧
      (pruneInactivePlayers now ws).last_scene_text = ws.last_scene_text := by
  unfold pruneInactivePlayers
  by_cases hap : (ws.active_players.filter (fun p => tsFresh now p.2)).isEmpty = true
  · rw [if_pos hap]
    exact ⟨rfl, rfl, rfl, rfl, rfl, rfl, rfl, rfl, rfl⟩
  · rw [if_neg hap]
    exact ⟨rfl, rfl, rfl, rfl, rfl, rfl, rfl, rfl, rfl⟩

theorem prune_is_open_of {now : Q} {ws : WorldState}
    (h : (pruneInactivePlayers now ws).active_players ≠ []) (ho : ws.is_open = true) :
    (pruneInactivePlayers now ws).is_open = true := by
  rw [prune_active] at h
  rw [prune_is_open]
  have hne : (ws.active_players.filter (fun p => tsFresh now p.2)).isEmpty = false := by
    cases hv : (ws.active_players.filter (fun p => tsFresh now p.2)) with
    | nil => exact absurd hv h
    | cons a l => rfl
  rw [hne]
  simpa using ho

/-! ### C6 -/

/-- C6: on an existing world, `leave_world` removes the leaving user's entry
from `active_players` unconditionally; if nobody remains active afterwards
`is_open` becomes false, and if someone remains it is true (assuming the
data-model invariant that a stored world with active players is open). -/
theorem c6_leave_world (uid : String) (ws res : WorldState) (now : Q)
    (hrun : leaveWorld uid (some ws) now = some res)
    (hinv : ws.active_players ≠ [] → ws.is_open = true) :
    res.active_players = eraseA (pruneInactivePlayers now ws).active_players uid ∧
      lookupA res.active_players uid = none ∧
      (res.active_players = [] → res.is_open = false) ∧
      (res.active_players ≠ [] → res.is_open = true) := by
  unfold leaveWorld at hrun
  rw [Option.some.injEq] at hrun
  subst hrun
  dsimp only
  by_cases he : (eraseA (pruneInactivePlayers now ws).active_players uid).isEmpty = true
  · rw [if_pos he]
    refine ⟨rfl, lookupA_eraseA _ _, fun _ => rfl, ?_⟩
    intro hne
    have : eraseA (pruneInactivePlayers now ws).active_players uid = [] := by
      cases hv : eraseA (pruneInactivePlayers now ws).active_players uid with
      | nil => rfl
      | cons a l => rw [hv] at he; cases he
    exact absurd this hne
  · rw [if_neg he]
    refine ⟨rfl, lookupA_eraseA _ _, ?_, ?_⟩
    · intro h0
      have : (eraseA (pruneInactivePlayers now ws).active_players uid).isEmpty = true := by
        rw [show eraseA (pruneInactivePlayers now ws).active_players uid = [] from h0]
        rfl
      exact absurd this he
    · intro _
      have hpne : (pruneInactivePlayers now ws).active_players ≠ [] := by
        intro h0
        apply he
        rw [show (pruneInactivePlayers now ws).active_players = [] from h0]
        rfl
      have hwne : ws.active_players ≠ [] := by
        intro h0
        apply hpne
        rw [prune_active, h0]
        rfl
      exact prune_is_open_of hpne (hinv hwne)

/-- C6 witness world: two fresh active players, world open. -/
def c6ws : WorldState :=
  { testW2 with
    active_players := [("u", Val.num (qInt 100)), ("v", Val.num (qInt 100))]
    is_open := true }

/-- Saved world of the C6 witness `leave` call. -/
def c6res : WorldState := (leaveWorld "u" (some c6ws) (qInt 200)).getD default

theorem c6_leave_world_witness :
    leaveWorld "u" (some c6ws) (qInt 200) = some c6res ∧
      c6res.active_players = [("v", Val.num (qInt 100))] ∧
      lookupA c6res.active_players "u" = none ∧
      c6res.is_open = true ∧
      (∃ res2, leaveWorld "v" (some c6res) (qInt 200) = some res2 ∧
        res2.active_players = [] ∧ res2.is_open = false) := by
  have hrun : leaveWorld "u" (some c6ws) (qInt 200) = some c6res := by decide
  have h := c6_leave_world "u" c6ws c6res (qInt 200) hrun (fun _ => rfl)
  have hact : c6res.active_players = [("v", Val.num (qInt 100))] := by decide
  refine ⟨hrun, hact, h.2.1, h.2.2.2 (by rw [hact]; intro hc; cases hc), ?_⟩
  have hrun2 : leaveWorld "v" (some c6res) (qInt 200) =
      some ((leaveWorld "v" (some c6res) (qInt 200)).getD default) := by decide
  have h2 := c6_leave_world "v" c6res ((leaveWorld "v" (some c6res) (qInt 200)).getD default)
    (qInt 200) hrun2 (fun _ => by decide)
  refine ⟨_, hrun2, ?_, ?_⟩
  · decide
  · exact h2.2.2.1 (by decide)

/-! ### C7 -/

theorem insertA_ne_nil {α : Type} (m : List (String × α)) (k : String) (v : α) :
    insertA m k v ≠ [] := by
  unfold insertA replaceA
  by_cases h : m.any (fun p => p.1 == k) = true
  · rw [if_pos h]
    cases m with
    | nil => cases h
    | cons a l => simp
  · rw [if_neg h]
    simp

theorem buildQuests_aux :
    ∀ (l : List RawQuest) (acc : List (String × Quest)),
      (acc ≠ [] ∨ ∃ q ∈ l, q.id.isSome = true) → l.foldl questStep acc ≠ [] := by
  intro l
  induction l with
  | nil =>
    intro acc h
    cases h with
    | inl h => exact h
    | inr h => obtain ⟨q, hq, _⟩ := h; cases hq
  | cons q rest ih =>
    intro acc h
    rw [List.foldl_cons]
    cases hid : q.id with
    | none =>
      refine ih _ ?_
      cases h with
      | inl h => exact Or.inl (by simpa [questStep, hid] using h)
      | inr h =>
        obtain ⟨q', hq', hs⟩ := h
        cases hq' with
        | head => rw [hid] at hs; cases hs
        | tail _ hmem => exact Or.inr ⟨q', hmem, hs⟩
    | some qid =>
      refine ih _ (Or.inl ?_)
      simp only [questStep, hid]
      exact insertA_ne_nil _ _ _

theorem buildQuests_ne_nil {l : List RawQuest} (hne : l ≠ [])
    (hall : ∀ q ∈ l, q.id.isSome = true) : buildQuests l ≠ [] := by
  unfold buildQuests
  cases l with
  | nil => exact absurd rfl hne
  | cons q rest =>
    exact buildQuests_aux (q :: rest) [] (Or.inr ⟨q, List.mem_cons_self q rest, hall q (List.mem_cons_self q rest)⟩)

/-- C7: the quest collaborator's returned list fully replaces the quest map
when it is a non-empty list of well-formed quests, and an empty returned
list leaves the quest map completely unchanged. -/
theorem c7_quest_full_replace (ws : WorldState) (uid : String) (actions : List Action)
    (dw : Nat → DwResult) (ee : EeResult) (qm : QmResult) (res : UpdateResult)
    (hok : updateWorld ws uid actions dw ee qm = Except.ok res) :
    (qm.quests = [] → res.world.quests = ws.quests) ∧
      (qm.quests ≠ [] → (∀ q ∈ qm.quests, q.id.isSome = true) →
        res.world.quests = buildQuests qm.quests) := by
  obtain ⟨m', _, _, _, _, _, _, _, hq⟩ := updateWorld_ok hok
  constructor
  · intro h0
    rw [hq, if_neg (fun hc => hc.1 h0)]
  · intro hne hall
    rw [hq, if_pos ⟨hne, buildQuests_ne_nil hne hall⟩]

/-- C7 witness world with an existing completed main quest and an open side
quest. -/
def c7ws : WorldState :=
  { testW with
    quests :=
      [("main_1", { id := "main_1", title := "M1", status := "completed", summary := "" }),
       ("side_1", { id := "side_1", title := "S1", status := "open", summary := "" })] }

/-- Quest-master response returning only `main_2`. -/
def c7qm : QmResult := { quests := [{ id := some "main_2", title := some "M2" }] }

/-- Result of the C7 witness replacement run. -/
def c7res : UpdateResult :=
  (updateWorld c7ws "u" [{ type := "WAIT" }] dwTriv {} c7qm).toOption.getD default

/-- Result of the C7 witness empty-response run. -/
def c7resEmpty : UpdateResult :=
  (updateWorld c7ws "u" [{ type := "WAIT" }] dwTriv {} {}).toOption.getD default

theorem c7_quest_full_replace_witness :
    (updateWorld c7ws "u" [{ type := "WAIT" }] dwTriv {} c7qm = Except.ok c7res ∧
      c7res.world.quests = buildQuests c7qm.quests ∧
      c7res.world.quests =
        [("main_2", { id := "main_2", title := "M2", status := "open", summary := "" })] ∧
      lookupA c7res.world.quests "main_1" = none ∧
      lookupA c7res.world.quests "side_1" = none) ∧
    (updateWorld c7ws "u" [{ type := "WAIT" }] dwTriv {} {} = Except.ok c7resEmpty ∧
      c7resEmpty.world.quests = c7ws.quests) := by
  have hok1 : updateWorld c7ws "u" [{ type := "WAIT" }] dwTriv {} c7qm = Except.ok c7res := by
    decide
  have hok2 : updateWorld c7ws "u" [{ type := "WAIT" }] dwTriv {} {} = Except.ok c7resEmpty := by
    decide
  have h1 := (c7_quest_full_replace c7ws "u" [{ type := "WAIT" }] dwTriv {} c7qm c7res hok1).2
    (by decide) (by decide)
  have h2 := (c7_quest_full_replace c7ws "u" [{ type := "WAIT" }] dwTriv {} {} c7resEmpty
    hok2).1 rfl
  exact ⟨⟨hok1, h1, by rw [h1]; decide, by rw [h1]; decide, by rw [h1]; decide⟩, ⟨hok2, h2⟩⟩

/-! ### C9 -/

/-- C9: reading a world id the store reports as absent raises no error: the
view has the explicit "does not exist yet" story, an empty visual, and
nothing is persisted. -/
theorem c9_unknown_world_read (now : Q)
    (render : WorldState → String → Option String → String) :
    getStateView none now render =
      ({ visual := ""
         story := "This world does not exist yet. Create it by sending an action." }, none) := rfl

/-! ### C10 -/

theorem not_Qlt_of_Qle {a b : Q} (h : Qle a b) : ¬ Qlt b a := by
  unfold Qle at h
  unfold Qlt
  omega

theorem tsFresh_iff (now : Q) (ts : Val) :
    tsFresh now ts = true ↔
      ∃ t, pyFloat ts = some t ∧ Qle (qsub now t) SESSION_TIMEOUT_SECONDS := by
  unfold tsFresh
  cases hp : pyFloat ts with
  | none => simp
  | some t =>
    dsimp only
    constructor
    · intro h
      refine ⟨t, rfl, ?_⟩
      apply Qle_of_not_Qlt
      intro hlt
      rw [decide_eq_true hlt] at h
      cases h
    · rintro ⟨t', ht', hle⟩
      obtain rfl : t = t' := by
        injection ht'
      rw [decide_eq_false (not_Qlt_of_Qle hle)]
      rfl

/-- C10: pruning removes exactly the entries whose timestamp is older than
`SESSION_TIMEOUT_SECONDS` relative to `now` or cannot be converted to a
number; the surviving entries keep their order, `is_open` is forced to false
exactly when nobody remains, and no other world field changes. -/
theorem c10_prune_spec (ws : WorldState) (now : Q) :
    (∀ u ts, (u, ts) ∈ (pruneInactivePlayers now ws).active_players ↔
      ((u, ts) ∈ ws.active_players ∧
        ∃ t, pyFloat ts = some t ∧ Qle (qsub now t) SESSION_TIMEOUT_SECONDS)) ∧
      (pruneInactivePlayers now ws).active_players.Sublist ws.active_players ∧
      (pruneInactivePlayers now ws).is_open =
        (if (pruneInactivePlayers now ws).active_players.isEmpty then false else ws.is_open) ∧
      (pruneInactivePlayers now ws).players = ws.players ∧
      (pruneInactivePlayers now ws).history_summaries = ws.history_summaries ∧
      (pruneInactivePlayers now ws).tick = ws.tick := by
  obtain ⟨hpl, hh, _, _, ht, _⟩ := prune_others now ws
  refine ⟨?_, ?_, ?_, hpl, hh, ht⟩
  · intro u ts
    rw [prune_active]
    rw [List.mem_filter]
    constructor
    · rintro ⟨hmem, hfr⟩
      exact ⟨hmem, (tsFresh_iff now ts).mp hfr⟩
    · rintro ⟨hmem, hex⟩
      exact ⟨hmem, (tsFresh_iff now ts).mpr hex⟩
  · rw [prune_active]
    exact List.filter_sublist _
  · rw [prune_is_open, prune_active]

theorem c10_prune_spec_witness :
    ((("u", Val.num (qInt 100)) ∈
        (pruneInactivePlayers (qInt 200) c6ws).active_players) ∧
      (("w", Val.num (qInt 100)) ∉
        (pruneInactivePlayers (qInt 200) c6ws).active_players) ∧
      (pruneInactivePlayers (qInt 200) c6ws).is_open = c6ws.is_open) := by
  have h := c10_prune_spec c6ws (qInt 200)
  refine ⟨?_, ?_, ?_⟩
  · exact (h.1 "u" (Val.num (qInt 100))).mpr ⟨by decide, qInt 100, by decide, by decide⟩
  · intro hmem
    have := ((h.1 "w" (Val.num (qInt 100))).mp hmem).1
    revert this
    decide
  · rw [h.2.2.1]
    decide


/-! ### C8 -/

/-- The fallback starter region as built from `fallbackRawRegion`. -/
def fallbackRegion : Region :=
  { id := "glass_whale_bay"
    name := "Glass Whale Bay"
    description := "A floating city built on the back of a shimmering glass whale."
    type := "bay"
    biome := "plains"
    neighbors := []
    known_to_player := true
    exits := []
    local_quest_ids := []
    exit_flavor := [] }

/-- A new player lands in the world's first region with default stats. -/
theorem ensurePlayer_new {uid : String} {ws : WorldState}
    (hno : lookupA ws.players uid = none) {rid : String} {r0 : Region}
    {rest : List (String × Region)} (hregs : ws.regions = (rid, r0) :: rest) :
    ensurePlayer uid ws = Except.ok (setPlayer ws uid (defaultPlayer uid rid)) := by
  unfold ensurePlayer
  rw [hno]
  rw [if_neg (by simp)]
  rw [hregs]
  rfl

/-- Characterisation of a successful `ensurePlayer` run on a fresh user. -/
theorem ensurePlayer_spec {uid : String} {ws res : WorldState}
    (hok : ensurePlayer uid ws = Except.ok res)
    (hno : lookupA ws.players uid = none) {rid : String} {r0 : Region}
    {rest : List (String × Region)} (hregs : ws.regions = (rid, r0) :: rest) :
    res = setPlayer ws uid (defaultPlayer uid rid) := by
  rw [ensurePlayer_new hno hregs] at hok
  rw [Except.ok.injEq] at hok
  exact hok.symm

/-- C8: when the world-architect response has no regions, the created world
holds exactly the one fallback bay-type region and the first player lands
there with the default 0.5/0.5/0.5 stats; in general the first player
created in any world is placed in the world's first region with those
default stats. -/
theorem c8_creation_defaults :
    (∀ (uid wid seed : String) (wa : WaResult) (res : WorldState),
      wa.regions = [] →
      loadOrInitWorldState uid wid seed none wa = Except.ok res →
      res.regions = [("glass_whale_bay", fallbackRegion)] ∧
        fallbackRegion.type = "bay" ∧
        ∃ p, lookupA res.players uid = some p ∧
          p.location_region_id = "glass_whale_bay" ∧
          p.stats = [("courage", qDec 5 1), ("empathy", qDec 5 1), ("cunning", qDec 5 1)]) ∧
    (∀ (uid : String) (ws res : WorldState) (rid : String) (r0 : Region)
      (rest : List (String × Region)),
      ensurePlayer uid ws = Except.ok res →
      lookupA ws.players uid = none →
      ws.regions = (rid, r0) :: rest →
      ∃ p, lookupA res.players uid = some p ∧
        p.location_region_id = rid ∧
        p.stats = [("courage", qDec 5 1), ("empathy", qDec 5 1), ("cunning", qDec 5 1)]) := by
  constructor
  · intro uid wid seed wa res hreg hok
    unfold loadOrInitWorldState at hok
    rw [hreg] at hok
    rw [if_pos rfl] at hok
    dsimp only at hok
    have hfb : buildRegions [fallbackRawRegion] =
        Except.ok [("glass_whale_bay", fallbackRegion)] := by decide
    rw [hfb] at hok
    dsimp only at hok
    split at hok
    · exact absurd hok (by simp)
    · rename_i chars hchars
      have hres := ensurePlayer_spec hok rfl rfl
      subst hres
      refine ⟨rfl, rfl, defaultPlayer uid "glass_whale_bay", ?_, rfl, rfl⟩
      dsimp only [setPlayer]
      exact lookupA_insertA _ _ _
  · intro uid ws res rid r0 rest hok hno hregs
    have hres := ensurePlayer_spec hok hno hregs
    subst hres
    refine ⟨defaultPlayer uid rid, ?_, rfl, rfl⟩
    dsimp only [setPlayer]
    exact lookupA_insertA _ _ _

/-- Created world of the C8 witness (empty architect response). -/
def c8res : WorldState :=
  (loadOrInitWorldState "u" "w" "s" none {}).toOption.getD default

theorem c8_creation_defaults_witness :
    (loadOrInitWorldState "u" "w" "s" none {} = Except.ok c8res ∧
      c8res.regions = [("glass_whale_bay", fallbackRegion)] ∧
      fallbackRegion.type = "bay" ∧
      lookupA c8res.players "u" = some (defaultPlayer "u" "glass_whale_bay") ∧
      (defaultPlayer "u" "glass_whale_bay").stats =
        [("courage", qDec 5 1), ("empathy", qDec 5 1), ("cunning", qDec 5 1)]) ∧
    (∃ res2 p2, ensurePlayer "z" testW = Except.ok res2 ∧
      lookupA res2.players "z" = some p2 ∧ p2.location_region_id = "r0" ∧
      p2.stats = [("courage", qDec 5 1), ("empathy", qDec 5 1), ("cunning", qDec 5 1)]) := by
  have hok : loadOrInitWorldState "u" "w" "s" none {} = Except.ok c8res := by decide
  have h1 := c8_creation_defaults.1 "u" "w" "s" {} c8res rfl hok
  refine ⟨⟨hok, h1.1, h1.2.1, by decide, by decide⟩, ?_⟩
  have hok2 : ensurePlayer "z" testW =
      Except.ok ((ensurePlayer "z" testW).toOption.getD default) := by decide
  obtain ⟨p2, hp2, hloc2, hstats2⟩ :=
    c8_creation_defaults.2 "z" testW ((ensurePlayer "z" testW).toOption.getD default)
      "r0" testRegion [] hok2 (by decide) (by decide)
  exact ⟨_, p2, hok2, hp2, hloc2, hstats2⟩


/-! ### C4 -/

/-- World-architect response with 51 history notes. -/
def wa51 : WaResult := { history_notes := List.replicate 51 "note" }

/-- Created world of the C4 counterexample run. -/
def c4cres : WorldState :=
  (loadOrInitWorldState "u" "w" "s" none wa51).toOption.getD default

/-- C4 counterexample: world creation copies the collaborator's history
notes into `history_summaries` without capping, so a fresh world can hold 51
entries, violating the 50-entry bound. -/
theorem c4_creation_history_uncapped :
    loadOrInitWorldState "u" "w" "s" none wa51 = Except.ok c4cres ∧
      c4cres.history_summaries.length = 51 := by
  exact ⟨by decide, by decide⟩

/-- The three log bounds of the data model. -/
def logsBounded (ws : WorldState) : Prop :=
  ws.history_summaries.length ≤ 50 ∧ ws.chat_log.length ≤ 200 ∧
    ws.story_log.length ≤ 100

instance (ws : WorldState) : Decidable (logsBounded ws) := by
  unfold logsBounded
  infer_instance

theorem logCommand_logs (uid msg : String) (ws : WorldState) :
    (logCommand uid msg ws).chat_log = ws.chat_log ∧
      (logCommand uid msg ws).story_log = ws.story_log ∧
      (ws.history_summaries.length ≤ 50 →
        (logCommand uid msg ws).history_summaries.length ≤ 50) := by
  unfold logCommand
  by_cases hc : stripStr (pyOrStr msg "WAIT") ≠ ""
  · rw [if_pos hc]
    exact ⟨rfl, rfl, fun _ => appendTrim_length _ _ _⟩
  · rw [if_neg hc]
    exact ⟨rfl, rfl, fun h => h⟩

theorem ensurePlayer_logs {uid : String} {ws res : WorldState}
    (hok : ensurePlayer uid ws = Except.ok res) :
    res.history_summaries = ws.history_summaries ∧ res.chat_log = ws.chat_log ∧
      res.story_log = ws.story_log := by
  unfold ensurePlayer at hok
  by_cases hs : (lookupA ws.players uid).isSome = true
  · rw [if_pos hs] at hok
    rw [Except.ok.injEq] at hok
    subst hok
    exact ⟨rfl, rfl, rfl⟩
  · rw [if_neg hs] at hok
    cases hh : ws.regions.head? with
    | none => rw [hh] at hok; cases hok
    | some pr =>
      rw [hh] at hok
      obtain ⟨rid, r0⟩ := pr
      dsimp only at hok
      rw [Except.ok.injEq] at hok
      subst hok
      exact ⟨rfl, rfl, rfl⟩

theorem loadOrInit_logs {uid wid seed : String} {load : Option WorldState} {wa : WaResult}
    {ws : WorldState} (hok : loadOrInitWorldState uid wid seed load wa = Except.ok ws)
    (hB : ∀ ws0, load = some ws0 → logsBounded ws0)
    (hN : load = none → wa.history_notes.length ≤ 50) :
    logsBounded ws := by
  unfold loadOrInitWorldState at hok
  cases load with
  | some ws0 =>
    obtain ⟨hh, hc, hsl⟩ := ensurePlayer_logs hok
    obtain ⟨b1, b2, b3⟩ := hB ws0 rfl
    exact ⟨by rw [hh]; exact b1, by rw [hc]; exact b2, by rw [hsl]; exact b3⟩
  | none =>
    dsimp only at hok
    split at hok
    · exact absurd hok (by simp)
    · split at hok
      · exact absurd hok (by simp)
      · obtain ⟨hh, hc, hsl⟩ := ensurePlayer_logs hok
        refine ⟨?_, ?_, ?_⟩
        · rw [hh]
          exact hN rfl
        · rw [hc]
          simp
        · rw [hsl]
          simp

theorem prune_logsBounded {now : Q} {ws : WorldState} (h : logsBounded ws) :
    logsBounded (pruneInactivePlayers now ws) := by
  obtain ⟨_, hph, hpc, hps, _⟩ := prune_others now ws
  exact ⟨by rw [hph]; exact h.1, by rw [hpc]; exact h.2.1, by rw [hps]; exact h.2.2⟩

/-- C4 (amended): the full-turn and action-only pipelines preserve the three
log bounds (history 50, chat 200, story 100) with oldest-first eviction,
provided the loaded world already satisfies them and - on the creation path -
the collaborator returns at most 50 history notes; world creation itself does
not cap `history_summaries` (see the counterexample). -/
theorem c4_bounded_logs :
    (∀ (uid wid msg : String) (seedIfNew : Option String) (now : Q)
      (load : Option WorldState) (wa : WaResult) (ci : List Action) (dw : Nat → DwResult)
      (ee : EeResult) (qm : QmResult) (sc : ScResult)
      (render : WorldState → String → Option String → String) (w : WorldState) (txt : String),
      handleTurn uid wid msg seedIfNew now load wa ci dw ee qm sc render = Except.ok (w, txt) →
      (∀ ws0, load = some ws0 → logsBounded ws0) →
      (load = none → wa.history_notes.length ≤ 50) →
      logsBounded w) ∧
    (∀ (uid wid msg : String) (seedIfNew : Option String) (now : Q)
      (load : Option WorldState) (wa : WaResult) (ci : List Action) (dw : Nat → DwResult)
      (ee : EeResult) (qm : QmResult) (res : WorldState),
      applyActionOnly uid wid msg seedIfNew now load wa ci dw ee qm = Except.ok res →
      (∀ ws0, load = some ws0 → logsBounded ws0) →
      (load = none → wa.history_notes.length ≤ 50) →
      logsBounded res) ∧
    (∀ (cap : Nat) (l : List String) (x : String), appendTrim cap l x <:+ l ++ [x]) := by
  refine ⟨?_, ?_, fun cap l x => appendTrim_suffix cap l x⟩
  · intro uid wid msg seedIfNew now load wa ci dw ee qm sc render w txt h hB hN
    unfold handleTurn at h
    dsimp only at h
    split at h
    · exact absurd h (by simp)
    · rename_i ws hload
      try dsimp only at h
      split at h
      · exact absurd h (by simp)
      · rename_i r hU
        rw [Except.ok.injEq, Prod.mk.injEq] at h
        obtain ⟨hw, -⟩ := h
        subst hw
        have hbw : logsBounded ws := loadOrInit_logs hload hB hN
        have hbp : logsBounded (pruneInactivePlayers now ws) := prune_logsBounded hbw
        have hlc := logCommand_logs uid msg
          { pruneInactivePlayers now ws with
            active_players :=
              insertA (pruneInactivePlayers now ws).active_players uid (Val.num now)
            is_open := true }
        have hb3 : logsBounded (logCommand uid msg
            { pruneInactivePlayers now ws with
              active_players :=
                insertA (pruneInactivePlayers now ws).active_players uid (Val.num now)
              is_open := true }) := by
          refine ⟨hlc.2.2 hbp.1, ?_, ?_⟩
          · rw [hlc.1]
            exact hbp.2.1
          · rw [hlc.2.1]
            exact hbp.2.2
        obtain ⟨m', _, _, hhist, hstory, hchat, _, _⟩ := updateWorld_ok hU
        refine ⟨?_, ?_, ?_⟩
        · dsimp only
          rw [hhist]
          exact hb3.1
        · dsimp only
          exact hchat hb3.2.1
        · dsimp only
          exact appendTrim_length _ _ _
  · intro uid wid msg seedIfNew now load wa ci dw ee qm res h hB hN
    unfold applyActionOnly at h
    dsimp only at h
    split at h
    · exact absurd h (by simp)
    · rename_i ws hload
      try dsimp only at h
      split at h
      · exact absurd h (by simp)
      · rename_i r hU
        rw [Except.ok.injEq] at h
        subst h
        have hbw : logsBounded ws := loadOrInit_logs hload hB hN
        have hbp : logsBounded (pruneInactivePlayers now ws) := prune_logsBounded hbw
        have hlc := logCommand_logs uid msg
          { pruneInactivePlayers now ws with
            active_players :=
              insertA (pruneInactivePlayers now ws).active_players uid (Val.num now)
            is_open := true }
        have hb3 : logsBounded (logCommand uid msg
            { pruneInactivePlayers now ws with
              active_players :=
                insertA (pruneInactivePlayers now ws).active_players uid (Val.num now)
              is_open := true }) := by
          refine ⟨hlc.2.2 hbp.1, ?_, ?_⟩
          · rw [hlc.1]
            exact hbp.2.1
          · rw [hlc.2.1]
            exact hbp.2.2
        obtain ⟨m', _, _, hhist, hstory, hchat, _, _⟩ := updateWorld_ok hU
        refine ⟨?_, ?_, ?_⟩
        · rw [hhist]
          exact hb3.1
        · exact hchat hb3.2.1
        · rw [hstory]
          exact hb3.2.2

/-- Saved pair of the C4 full-turn witness run. -/
def c4pair : WorldState × String :=
  (handleTurn "u" "w" "hello" none (qInt 0) (some testW) {} [] dwTriv {} {} {}
    (fun _ _ _ => "map")).toOption.getD default

/-- Saved world of the C4 action-only witness run. -/
def c4act : WorldState :=
  (applyActionOnly "u" "w" "hello" none (qInt 0) (some testW) {} [] dwTriv {} {}).toOption.getD
    default

theorem c4_bounded_logs_witness :
    logsBounded c4pair.1 ∧ logsBounded c4act ∧
      appendTrim 2 ["a", "b"] "c" <:+ ["a", "b"] ++ ["c"] := by
  have hok : handleTurn "u" "w" "hello" none (qInt 0) (some testW) {} [] dwTriv {} {} {}
      (fun _ _ _ => "map") = Except.ok c4pair := by decide
  have hok2 : applyActionOnly "u" "w" "hello" none (qInt 0) (some testW) {} [] dwTriv {} {} =
      Except.ok c4act := by decide
  refine ⟨?_, ?_, c4_bounded_logs.2.2 2 ["a", "b"] "c"⟩
  · exact c4_bounded_logs.1 "u" "w" "hello" none (qInt 0) (some testW) {} [] dwTriv {} {} {}
      (fun _ _ _ => "map") c4pair.1 c4pair.2 hok
      (fun ws0 h0 => by cases h0; decide) (fun h0 => nomatch h0)
  · exact c4_bounded_logs.2.1 "u" "w" "hello" none (qInt 0) (some testW) {} [] dwTriv {} {}
      c4act hok2 (fun ws0 h0 => by cases h0; decide) (fun h0 => nomatch h0)

end DW
